import Mathlib

/-!
Verification of the x86 power-intrinsics module
(`lib/librte_eal/x86/rte_power_intrinsics.c`).

The C module exposes three operations over a per-lcore wait-status table:
`rte_power_monitor` (arm UMONITOR on an address, optionally skip UMWAIT when
a masked comparison is already satisfied), `rte_power_pause` (TPAUSE), and
`rte_power_monitor_wakeup` (touch the watched address of another lcore via a
value-preserving compare-and-swap).  A process-wide `wait_supported` flag,
set once at init, gates all three.

Shallow embedding: memory is byte-addressed (`Nat → Nat`, each cell read
modulo 256); the wait-status table is `Nat → power_wait_status`; the monitor
operation additionally returns the sequence of events it performs together
with a snapshot of the calling core's record (and the hardware monitor's
armed address) after each event, so ordering claims are statable.
-/

/-- `RTE_MAX_LCORE`: maximum number of lcores (default DPDK config). -/
def RTE_MAX_LCORE : Nat := 128

/-- Error number `ENOTSUP`. -/
def ENOTSUP : Int := 95

/-- Error number `EINVAL`. -/
def EINVAL : Int := 22

/-- Per-lcore record `struct power_wait_status`: a spinlock and the address
currently monitored (`none` models the C `NULL`). -/
structure power_wait_status where
  lock : Bool
  monitor_addr : Option Nat
  deriving DecidableEq, Repr

/-- Little-endian read of `n` bytes of memory starting at `p`; each cell of
`mem` is taken modulo 256 (a byte). -/
def readBytes (mem : Nat → Nat) (p : Nat) : Nat → Nat
  | 0 => 0
  | n + 1 => mem p % 256 + 256 * readBytes mem (p + 1) n

/-- `__check_val_size`: 0 when `sz` is one of the four recognized operand
widths (sizeof uint8/16/32/64), -1 otherwise. -/
def check_val_size (sz : Nat) : Int :=
  if sz = 1 then 0
  else if sz = 2 then 0
  else if sz = 4 then 0
  else if sz = 8 then 0
  else -1

/-- `__get_umwait_val`: width-dispatched read at `p`.  The C default branch
(`RTE_ASSERT(0); return 0;`) is modelled as `none`. -/
def get_umwait_val (mem : Nat → Nat) (p : Nat) (sz : Nat) : Option Nat :=
  if sz = 1 then some (readBytes mem p 1)
  else if sz = 2 then some (readBytes mem p 2)
  else if sz = 4 then some (readBytes mem p 4)
  else if sz = 8 then some (readBytes mem p 8)
  else none

/-- The static flag `wait_supported` starts as C zero-initialized `false`. -/
def wait_supported_initial : Bool := false

/-- `rte_power_intrinsics_init` (the `RTE_INIT` constructor): queries the CPU
intrinsics support collaborator (here: the two booleans `power_monitor` and
`power_pause` of `struct rte_cpu_intrinsics`) and sets `wait_supported` to 1
when both hold; otherwise the flag keeps its previous value `ws`. -/
def rte_power_intrinsics_init (power_monitor power_pause : Bool) (ws : Bool) : Bool :=
  if power_monitor && power_pause then true else ws

/-- 64-bit load used by `__umwait_wakeup`. -/
def read64 (mem : Nat → Nat) (addr : Nat) : Nat :=
  readBytes mem addr 8

/-- 64-bit store: writes the 8 little-endian bytes of `v` at `addr`. -/
def write64 (mem : Nat → Nat) (addr : Nat) (v : Nat) : Nat → Nat :=
  fun a => if addr ≤ a ∧ a < addr + 8 then v / 256 ^ (a - addr) % 256 else mem a

/-- `__umwait_wakeup`: load the current 64-bit value at `addr`, then
compare-and-swap the same value back (the CAS trivially succeeds in this
sequential model since the expected value was just loaded). -/
def umwait_wakeup (mem : Nat → Nat) (addr : Nat) : Nat → Nat :=
  let val := read64 mem addr
  if read64 mem addr = val then write64 mem addr val else mem

/-- `struct rte_power_monitor_cond`. -/
structure rte_power_monitor_cond where
  addr : Nat
  mask : Nat
  val : Nat
  data_sz : Nat
  deriving DecidableEq, Repr

/-- The steps `rte_power_monitor` performs once validation has passed. -/
inductive MEvent where
  | lock_acquired   -- rte_spinlock_lock(&s->lock)
  | store_addr      -- s->monitor_addr = pmc->addr
  | umonitor        -- asm UMONITOR on pmc->addr
  | lock_released   -- rte_spinlock_unlock(&s->lock)
  | skip_wait       -- goto end: masked value already matches
  | umwait          -- asm UMWAIT
  | end_lock        -- rte_spinlock_lock(&s->lock)
  | clear_addr      -- s->monitor_addr = NULL
  | end_unlock      -- rte_spinlock_unlock(&s->lock)
  deriving DecidableEq, Repr

/-- Snapshot of the calling core's wait record (and of the address the
hardware monitor is armed on) after one step of `rte_power_monitor`. -/
structure MonSnap where
  monitor_addr : Option Nat
  locked : Bool
  armed : Option Nat
  deriving DecidableEq, Repr

/-- The post-validation event/snapshot trace of `rte_power_monitor`: lock,
publish the address, UMONITOR, unlock, then either skip (masked comparison
already satisfied) or UMWAIT, then lock, erase the address, unlock.
`m0` is the record's address field on entry, `addr` the target address,
`skip` whether the masked-comparison short circuit fires. -/
def monTrace (m0 : Option Nat) (addr : Nat) (skip : Bool) :
    List (MEvent × MonSnap) :=
  let armedAfter : Option Nat := if skip then some addr else none
  [(.lock_acquired, ⟨m0, true, none⟩),
   (.store_addr, ⟨some addr, true, none⟩),
   (.umonitor, ⟨some addr, true, some addr⟩),
   (.lock_released, ⟨some addr, false, some addr⟩),
   (if skip then MEvent.skip_wait else MEvent.umwait,
     ⟨some addr, false, armedAfter⟩),
   (.end_lock, ⟨some addr, true, armedAfter⟩),
   (.clear_addr, ⟨none, true, armedAfter⟩),
   (.end_unlock, ⟨none, false, armedAfter⟩)]

/-- `rte_power_monitor`: validates (`wait_supported` gate, lcore range, null
condition, operand width), then arms and conditionally waits.  Returns the
return code, the updated wait-status table, and the trace of post-validation
events, each paired with the state reached after it.  `UMWAIT` consumes the
armed monitor; the `skip_wait` path abandons it armed. -/
def rte_power_monitor (sup : Bool) (lcore_id : Nat)
    (pmc : Option rte_power_monitor_cond) (tsc_timestamp : Nat)
    (tbl : Nat → power_wait_status) (mem : Nat → Nat) :
    Int × (Nat → power_wait_status) × List (MEvent × MonSnap) :=
  if !sup then (-ENOTSUP, tbl, [])
  else if RTE_MAX_LCORE ≤ lcore_id then (-EINVAL, tbl, [])
  else
    match pmc with
    | none => (-EINVAL, tbl, [])
    | some c =>
      if check_val_size c.data_sz < 0 then (-EINVAL, tbl, [])
      else
        let skip : Bool :=
          c.mask ≠ 0 ∧
            (get_umwait_val mem c.addr c.data_sz).getD 0 &&& c.mask = c.val
        (0, fun i => if i = lcore_id then ⟨false, none⟩ else tbl i,
          monTrace ((tbl lcore_id).monitor_addr) c.addr skip)

/-- `rte_power_pause`: gate check, then TPAUSE.  The wait-status table and
memory are threaded through to express the frame: the source never touches
them.  The final `Bool` records whether TPAUSE was executed. -/
def rte_power_pause (sup : Bool) (tsc_timestamp : Nat)
    (tbl : Nat → power_wait_status) (mem : Nat → Nat) :
    Int × (Nat → power_wait_status) × (Nat → Nat) × Bool :=
  if !sup then (-ENOTSUP, tbl, mem, false)
  else (0, tbl, mem, true)

/-- `rte_power_monitor_wakeup`: gate check, lcore range check, then under the
target record's lock touch the monitored address (if any) with
`__umwait_wakeup`.  Returns the code, table, memory, and whether a touch was
performed.  The lock is acquired and released, leaving the record as found. -/
def rte_power_monitor_wakeup (sup : Bool) (lcore_id : Nat)
    (tbl : Nat → power_wait_status) (mem : Nat → Nat) :
    Int × (Nat → power_wait_status) × (Nat → Nat) × Bool :=
  if !sup then (-ENOTSUP, tbl, mem, false)
  else if RTE_MAX_LCORE ≤ lcore_id then (-EINVAL, tbl, mem, false)
  else
    match (tbl lcore_id).monitor_addr with
    | none => (0, tbl, mem, false)
    | some a => (0, tbl, umwait_wakeup mem a, true)

theorem check_val_size_eq_zero_iff (sz : Nat) :
    check_val_size sz = 0 ↔ sz = 1 ∨ sz = 2 ∨ sz = 4 ∨ sz = 8 := by
  unfold check_val_size
  split_ifs with h1 h2 h3 h4 <;> simp_all

theorem get_umwait_val_eq (mem : Nat → Nat) (p : Nat) (sz : Nat)
    (h : check_val_size sz = 0) :
    get_umwait_val mem p sz = some (readBytes mem p sz) := by
  rcases (check_val_size_eq_zero_iff sz).mp h with h | h | h | h <;>
    subst h <;> rfl

/-- C10: if `__check_val_size` accepted the width, the width-dispatched
read `__get_umwait_val` never reaches its default (assertion) branch. -/
theorem get_umwait_val_total (mem : Nat → Nat) (p : Nat) (sz : Nat)
    (h : check_val_size sz = 0) :
    (get_umwait_val mem p sz).isSome = true := by
  rw [get_umwait_val_eq mem p sz h]
  rfl

/-- C10 witness: width 4 passes validation and the read is defined. -/
theorem get_umwait_val_total_witness :
    check_val_size 4 = 0 ∧
      (get_umwait_val (fun _ => 0) 0 4).isSome = true :=
  ⟨by decide, get_umwait_val_total (fun _ => 0) 0 4 (by decide)⟩

theorem monitor_valid_unfold (lcore_id tsc : Nat) (c : rte_power_monitor_cond)
    (tbl : Nat → power_wait_status) (mem : Nat → Nat)
    (hl : lcore_id < RTE_MAX_LCORE) (hw : check_val_size c.data_sz = 0) :
    rte_power_monitor true lcore_id (some c) tsc tbl mem =
      (0, fun i => if i = lcore_id then ⟨false, none⟩ else tbl i,
        monTrace ((tbl lcore_id).monitor_addr) c.addr
          (decide (c.mask ≠ 0 ∧
            (get_umwait_val mem c.addr c.data_sz).getD 0 &&& c.mask = c.val))) := by
  have hw' : ¬check_val_size c.data_sz < 0 := by rw [hw]; decide
  simp [rte_power_monitor, Nat.not_le.mpr hl, hw']

theorem monTrace_events (m0 : Option Nat) (addr : Nat) (skip : Bool) :
    (monTrace m0 addr skip).map Prod.fst =
      [.lock_acquired, .store_addr, .umonitor, .lock_released,
       if skip then MEvent.skip_wait else MEvent.umwait,
       .end_lock, .clear_addr, .end_unlock] := by
  cases skip <;> rfl

/-- C1: once validation passes, if the mask is non-zero and the value read at
the condition's width, ANDed with the mask, equals the expected value, the
UMWAIT step is skipped and the call returns 0; if the masked value differs,
or if the mask is zero, UMWAIT is executed (and the call still returns 0). -/
theorem monitor_mask_short_circuit (lcore_id tsc : Nat)
    (c : rte_power_monitor_cond) (tbl : Nat → power_wait_status)
    (mem : Nat → Nat) (hl : lcore_id < RTE_MAX_LCORE)
    (hw : check_val_size c.data_sz = 0) :
    (rte_power_monitor true lcore_id (some c) tsc tbl mem).1 = 0 ∧
    (c.mask ≠ 0 → readBytes mem c.addr c.data_sz &&& c.mask = c.val →
      MEvent.skip_wait ∈
          ((rte_power_monitor true lcore_id (some c) tsc tbl mem).2.2.map
            Prod.fst) ∧
        MEvent.umwait ∉
          ((rte_power_monitor true lcore_id (some c) tsc tbl mem).2.2.map
            Prod.fst)) ∧
    (c.mask ≠ 0 → readBytes mem c.addr c.data_sz &&& c.mask ≠ c.val →
      MEvent.umwait ∈
        ((rte_power_monitor true lcore_id (some c) tsc tbl mem).2.2.map
          Prod.fst)) ∧
    (c.mask = 0 →
      MEvent.umwait ∈
          ((rte_power_monitor true lcore_id (some c) tsc tbl mem).2.2.map
            Prod.fst) ∧
        MEvent.skip_wait ∉
          ((rte_power_monitor true lcore_id (some c) tsc tbl mem).2.2.map
            Prod.fst)) := by
  rw [monitor_valid_unfold lcore_id tsc c tbl mem hl hw,
    get_umwait_val_eq mem c.addr c.data_sz hw]
  refine ⟨rfl, ?_, ?_, ?_⟩
  · intro hm hv
    rw [monTrace_events]
    simp [hm, hv]
  · intro hm hv
    rw [monTrace_events]
    simp [hm, hv]
  · intro hm
    rw [monTrace_events]
    simp [hm]

/-- C1 witness: mask 0xff over a memory holding byte 5 at address 10, with
expected value 5: the wait is skipped and the call returns 0. -/
theorem monitor_mask_short_circuit_witness :
    (3 : Nat) < RTE_MAX_LCORE ∧
      check_val_size (rte_power_monitor_cond.mk 10 255 5 1).data_sz = 0 ∧
      ((rte_power_monitor true 3 (some (rte_power_monitor_cond.mk 10 255 5 1))
          1000 (fun _ => ⟨false, none⟩) (fun _ => 5)).1 = 0 ∧
        ((255 : Nat) ≠ 0 →
          readBytes (fun _ => 5) 10 1 &&& 255 = 5 →
          MEvent.skip_wait ∈
              ((rte_power_monitor true 3
                (some (rte_power_monitor_cond.mk 10 255 5 1)) 1000
                (fun _ => ⟨false, none⟩) (fun _ => 5)).2.2.map Prod.fst) ∧
            MEvent.umwait ∉
              ((rte_power_monitor true 3
                (some (rte_power_monitor_cond.mk 10 255 5 1)) 1000
                (fun _ => ⟨false, none⟩) (fun _ => 5)).2.2.map Prod.fst)) ∧
        ((255 : Nat) ≠ 0 →
          readBytes (fun _ => 5) 10 1 &&& 255 ≠ 5 →
          MEvent.umwait ∈
            ((rte_power_monitor true 3
              (some (rte_power_monitor_cond.mk 10 255 5 1)) 1000
              (fun _ => ⟨false, none⟩) (fun _ => 5)).2.2.map Prod.fst)) ∧
        ((255 : Nat) = 0 →
          MEvent.umwait ∈
              ((rte_power_monitor true 3
                (some (rte_power_monitor_cond.mk 10 255 5 1)) 1000
                (fun _ => ⟨false, none⟩) (fun _ => 5)).2.2.map Prod.fst) ∧
            MEvent.skip_wait ∉
              ((rte_power_monitor true 3
                (some (rte_power_monitor_cond.mk 10 255 5 1)) 1000
                (fun _ => ⟨false, none⟩) (fun _ => 5)).2.2.map Prod.fst))) :=
  ⟨by decide, by decide,
    monitor_mask_short_circuit 3 1000 (rte_power_monitor_cond.mk 10 255 5 1)
      (fun _ => ⟨false, none⟩) (fun _ => 5) (by decide) (by decide)⟩

/-- C2: once validation passes, on every return path the calling core's
`monitor_addr` field is `none` in the final table. -/
theorem monitor_clears_addr (lcore_id tsc : Nat) (c : rte_power_monitor_cond)
    (tbl : Nat → power_wait_status) (mem : Nat → Nat)
    (hl : lcore_id < RTE_MAX_LCORE) (hw : check_val_size c.data_sz = 0) :
    ((rte_power_monitor true lcore_id (some c) tsc tbl mem).2.1
        lcore_id).monitor_addr = none := by
  rw [monitor_valid_unfold lcore_id tsc c tbl mem hl hw]
  simp

/-- C2 witness: a concrete validated call ends with `monitor_addr = none`. -/
theorem monitor_clears_addr_witness :
    (3 : Nat) < RTE_MAX_LCORE ∧
      check_val_size (rte_power_monitor_cond.mk 10 255 5 1).data_sz = 0 ∧
      ((rte_power_monitor true 3 (some (rte_power_monitor_cond.mk 10 255 5 1))
          1000 (fun _ => ⟨false, none⟩) (fun _ => 5)).2.1
            3).monitor_addr = none :=
  ⟨by decide, by decide,
    monitor_clears_addr 3 1000 (rte_power_monitor_cond.mk 10 255 5 1)
      (fun _ => ⟨false, none⟩) (fun _ => 5) (by decide) (by decide)⟩

/-- C5: with the gate true, `rte_power_monitor` returns `-EINVAL` iff the
lcore id is out of range, or the condition is NULL, or the operand width is
not one of 1, 2, 4, 8; and an out-of-range lcore id short-circuits before the
condition is even inspected. -/
theorem monitor_einval_iff (lcore_id tsc : Nat)
    (pmc : Option rte_power_monitor_cond) (tbl : Nat → power_wait_status)
    (mem : Nat → Nat) :
    ((rte_power_monitor true lcore_id pmc tsc tbl mem).1 = -EINVAL ↔
      RTE_MAX_LCORE ≤ lcore_id ∨ pmc = none ∨
        ∃ c, pmc = some c ∧
          ¬(c.data_sz = 1 ∨ c.data_sz = 2 ∨ c.data_sz = 4 ∨ c.data_sz = 8)) ∧
    (RTE_MAX_LCORE ≤ lcore_id →
      rte_power_monitor true lcore_id pmc tsc tbl mem = (-EINVAL, tbl, [])) := by
  constructor
  · unfold rte_power_monitor
    by_cases hl : RTE_MAX_LCORE ≤ lcore_id
    · simp [hl, EINVAL]
    · cases pmc with
      | none => simp [hl, EINVAL]
      | some c =>
        by_cases hw : check_val_size c.data_sz < 0
        · simp only [Bool.not_true, if_false, if_neg hl, if_pos hw]
          have : ¬(c.data_sz = 1 ∨ c.data_sz = 2 ∨ c.data_sz = 4 ∨
              c.data_sz = 8) := by
            intro h
            rw [(check_val_size_eq_zero_iff c.data_sz).mpr h] at hw
            exact absurd hw (by decide)
          push_neg at this
          simp [hl, this.1, this.2.1, this.2.2.1, this.2.2.2]
        · have hz : check_val_size c.data_sz = 0 := by
            unfold check_val_size at hw ⊢
            split_ifs at hw ⊢ <;> simp_all
          have hv : ¬¬(c.data_sz = 1 ∨ c.data_sz = 2 ∨ c.data_sz = 4 ∨
              c.data_sz = 8) :=
            not_not_intro ((check_val_size_eq_zero_iff c.data_sz).mp hz)
          simp only [Bool.not_true, if_false, if_neg hl, if_neg hw]
          simp [hl, hv, EINVAL]
          have h4 := not_not.mp hv
          tauto
  · intro hl
    unfold rte_power_monitor
    rw [if_neg (by simp), if_pos hl]

/-- C5 witness: lcore 200 is out of range, so the call (even with a NULL
condition) returns `-EINVAL` without touching the table. -/
theorem monitor_einval_iff_witness :
    RTE_MAX_LCORE ≤ 200 ∧
      rte_power_monitor true 200 none 0 (fun _ => ⟨false, none⟩)
          (fun _ => 0) =
        (-EINVAL, fun _ => ⟨false, none⟩, []) :=
  ⟨by decide,
    (monitor_einval_iff 200 0 none (fun _ => ⟨false, none⟩) (fun _ => 0)).2
      (by decide)⟩

theorem monTrace_ordering (m0 : Option Nat) (addr : Nat) (skip : Bool) :
    [MEvent.store_addr, MEvent.umonitor, MEvent.lock_released].Sublist
        ((monTrace m0 addr skip).map Prod.fst) ∧
      ((monTrace m0 addr skip).map Prod.fst).count MEvent.store_addr = 1 ∧
      ((monTrace m0 addr skip).map Prod.fst).count MEvent.umonitor = 1 ∧
      ((monTrace m0 addr skip).map Prod.fst).count MEvent.lock_released = 1 := by
  cases skip <;> rw [monTrace_events] <;>
    exact ⟨by decide, by decide, by decide, by decide⟩

theorem monTrace_armed_inv (m0 : Option Nat) (addr : Nat) (skip : Bool) :
    ∀ e s a2,
      (e, s) ∈ (monTrace m0 addr skip).takeWhile
          (fun x => x.1 ≠ MEvent.clear_addr) →
      s.armed = some a2 → a2 = addr ∧ s.monitor_addr = some addr := by
  intro e s a2 hm ha2
  cases skip with
  | false =>
    simp [monTrace, List.takeWhile] at hm
    rcases hm with ⟨he, hs⟩ | ⟨he, hs⟩ | ⟨he, hs⟩ | ⟨he, hs⟩ | ⟨he, hs⟩ |
      ⟨he, hs⟩ <;> subst hs <;> simp_all
  | true =>
    simp [monTrace, List.takeWhile] at hm
    rcases hm with ⟨he, hs⟩ | ⟨he, hs⟩ | ⟨he, hs⟩ | ⟨he, hs⟩ | ⟨he, hs⟩ |
      ⟨he, hs⟩ <;> subst hs <;> simp_all

/-- C3: in the validated monitor operation, the store of the target address
into `monitor_addr` happens strictly before the UMONITOR arm, and both
happen before the record lock is released (each of the three steps occurs
exactly once, in that order); moreover in every intermediate state up to the
erase step in which the hardware monitor is armed, the armed address is the
target and `monitor_addr` already equals it. -/
theorem monitor_publish_before_arm (lcore_id tsc : Nat)
    (c : rte_power_monitor_cond) (tbl : Nat → power_wait_status)
    (mem : Nat → Nat) (hl : lcore_id < RTE_MAX_LCORE)
    (hw : check_val_size c.data_sz = 0) :
    ∃ tr,
      rte_power_monitor true lcore_id (some c) tsc tbl mem =
        (0, fun i => if i = lcore_id then ⟨false, none⟩ else tbl i, tr) ∧
      [MEvent.store_addr, MEvent.umonitor, MEvent.lock_released].Sublist
        (tr.map Prod.fst) ∧
      (tr.map Prod.fst).count MEvent.store_addr = 1 ∧
      (tr.map Prod.fst).count MEvent.umonitor = 1 ∧
      (tr.map Prod.fst).count MEvent.lock_released = 1 ∧
      ∀ e s a2,
        (e, s) ∈ tr.takeWhile (fun x => x.1 ≠ MEvent.clear_addr) →
        s.armed = some a2 → a2 = c.addr ∧ s.monitor_addr = some c.addr := by
  refine ⟨_, monitor_valid_unfold lcore_id tsc c tbl mem hl hw,
    (monTrace_ordering _ _ _).1, (monTrace_ordering _ _ _).2.1,
    (monTrace_ordering _ _ _).2.2.1, (monTrace_ordering _ _ _).2.2.2,
    monTrace_armed_inv _ _ _⟩

/-- C3 witness: a concrete validated call exhibits the ordered trace. -/
theorem monitor_publish_before_arm_witness :
    (3 : Nat) < RTE_MAX_LCORE ∧
      check_val_size (rte_power_monitor_cond.mk 10 255 5 1).data_sz = 0 ∧
      ∃ tr,
        rte_power_monitor true 3 (some (rte_power_monitor_cond.mk 10 255 5 1))
            1000 (fun _ => ⟨false, none⟩) (fun _ => 5) =
          (0, fun i => if i = 3 then ⟨false, none⟩
            else (fun _ => (⟨false, none⟩ : power_wait_status)) i, tr) ∧
        [MEvent.store_addr, MEvent.umonitor, MEvent.lock_released].Sublist
          (tr.map Prod.fst) ∧
        (tr.map Prod.fst).count MEvent.store_addr = 1 ∧
        (tr.map Prod.fst).count MEvent.umonitor = 1 ∧
        (tr.map Prod.fst).count MEvent.lock_released = 1 ∧
        ∀ e s a2,
          (e, s) ∈ tr.takeWhile (fun x => x.1 ≠ MEvent.clear_addr) →
          s.armed = some a2 →
            a2 = (rte_power_monitor_cond.mk 10 255 5 1).addr ∧
              s.monitor_addr = some (rte_power_monitor_cond.mk 10 255 5 1).addr :=
  ⟨by decide, by decide,
    monitor_publish_before_arm 3 1000 (rte_power_monitor_cond.mk 10 255 5 1)
      (fun _ => ⟨false, none⟩) (fun _ => 5) (by decide) (by decide)⟩

/-- C8: `rte_power_pause` leaves the wait-status table (and memory)
untouched; it returns `-ENOTSUP` exactly when the gate is false and `0`
(after executing TPAUSE) exactly when the gate is true. -/
theorem pause_frame (sup : Bool) (tsc : Nat) (tbl : Nat → power_wait_status)
    (mem : Nat → Nat) :
    rte_power_pause sup tsc tbl mem =
      (if sup then 0 else -ENOTSUP, tbl, mem, sup) := by
  cases sup <;> rfl

theorem wakeup_touch_eq (lcore_id a : Nat) (tbl : Nat → power_wait_status)
    (mem : Nat → Nat) (hl : lcore_id < RTE_MAX_LCORE)
    (ha : (tbl lcore_id).monitor_addr = some a) :
    rte_power_monitor_wakeup true lcore_id tbl mem =
      (0, tbl, umwait_wakeup mem a, true) := by
  unfold rte_power_monitor_wakeup
  rw [if_neg (by simp), if_neg (by omega)]
  simp [ha]

/-- C6: with the gate true, wakeup returns `-EINVAL` exactly on an
out-of-range lcore id; otherwise it returns 0 both when the target's
`monitor_addr` is NULL (no touch, nothing changed) and when it is set
(touch performed). -/
theorem wakeup_ret_spec (lcore_id : Nat) (tbl : Nat → power_wait_status)
    (mem : Nat → Nat) :
    (RTE_MAX_LCORE ≤ lcore_id →
      rte_power_monitor_wakeup true lcore_id tbl mem =
        (-EINVAL, tbl, mem, false)) ∧
    (lcore_id < RTE_MAX_LCORE →
      (rte_power_monitor_wakeup true lcore_id tbl mem).1 = 0 ∧
      ((tbl lcore_id).monitor_addr = none →
        rte_power_monitor_wakeup true lcore_id tbl mem = (0, tbl, mem, false)) ∧
      (∀ a, (tbl lcore_id).monitor_addr = some a →
        rte_power_monitor_wakeup true lcore_id tbl mem =
          (0, tbl, umwait_wakeup mem a, true))) := by
  constructor
  · intro hl
    unfold rte_power_monitor_wakeup
    rw [if_neg (by simp), if_pos hl]
  · intro hl
    unfold rte_power_monitor_wakeup
    rw [if_neg (by simp), if_neg (by omega)]
    refine ⟨?_, ?_, ?_⟩
    · cases h : (tbl lcore_id).monitor_addr <;> simp [h]
    · intro h; simp [h]
    · intro a h; simp [h]

/-- C6 witness: lcore 0 with no armed address gives 0 and no state change;
lcore 200 is rejected with `-EINVAL`. -/
theorem wakeup_ret_spec_witness :
    ((0 : Nat) < RTE_MAX_LCORE ∧
      ((fun _ => (⟨false, none⟩ : power_wait_status)) 0).monitor_addr = none ∧
      rte_power_monitor_wakeup true 0 (fun _ => ⟨false, none⟩) (fun _ => 0) =
        (0, fun _ => ⟨false, none⟩, fun _ => 0, false)) ∧
    (RTE_MAX_LCORE ≤ 200 ∧
      rte_power_monitor_wakeup true 200 (fun _ => ⟨false, none⟩)
          (fun _ => 0) =
        (-EINVAL, fun _ => ⟨false, none⟩, fun _ => 0, false)) :=
  ⟨⟨by decide, rfl,
    ((wakeup_ret_spec 0 (fun _ => ⟨false, none⟩) (fun _ => 0)).2
      (by decide)).2.1 rfl⟩,
   ⟨by decide,
    (wakeup_ret_spec 200 (fun _ => ⟨false, none⟩) (fun _ => 0)).1
      (by decide)⟩⟩

/-- C4: error atomicity.  With the gate false all three operations return
`-ENOTSUP` with no state touched (empty trace, table and memory unchanged);
and whenever monitor or wakeup returns `-EINVAL`, the table, memory and
trace are untouched. -/
theorem error_atomicity (sup : Bool) (lcore_id wid tsc : Nat)
    (pmc : Option rte_power_monitor_cond) (tbl : Nat → power_wait_status)
    (mem : Nat → Nat) :
    (sup = false →
      rte_power_monitor sup lcore_id pmc tsc tbl mem = (-ENOTSUP, tbl, []) ∧
      rte_power_pause sup tsc tbl mem = (-ENOTSUP, tbl, mem, false) ∧
      rte_power_monitor_wakeup sup wid tbl mem = (-ENOTSUP, tbl, mem, false)) ∧
    ((rte_power_monitor sup lcore_id pmc tsc tbl mem).1 = -EINVAL →
      (rte_power_monitor sup lcore_id pmc tsc tbl mem).2.1 = tbl ∧
      (rte_power_monitor sup lcore_id pmc tsc tbl mem).2.2 = []) ∧
    ((rte_power_monitor_wakeup sup wid tbl mem).1 = -EINVAL →
      rte_power_monitor_wakeup sup wid tbl mem = (-EINVAL, tbl, mem, false)) := by
  refine ⟨?_, ?_, ?_⟩
  · rintro rfl
    exact ⟨rfl, rfl, rfl⟩
  · cases sup with
    | false =>
      intro h
      simp [rte_power_monitor, ENOTSUP, EINVAL] at h
    | true =>
      unfold rte_power_monitor
      by_cases hl : RTE_MAX_LCORE ≤ lcore_id
      · simp [hl]
      · cases pmc with
        | none => simp [hl]
        | some c =>
          by_cases hw : check_val_size c.data_sz < 0
          · simp [hl, hw]
          · simp [hl, hw, EINVAL]
  · cases sup with
    | false =>
      intro h
      simp [rte_power_monitor_wakeup, ENOTSUP, EINVAL] at h
    | true =>
      unfold rte_power_monitor_wakeup
      by_cases hl : RTE_MAX_LCORE ≤ wid
      · simp [hl]
      · cases h : (tbl wid).monitor_addr <;> simp [hl, h, EINVAL]

/-- C4 witness: with the gate false all three operations return `-ENOTSUP`
and leave the table, memory and trace untouched. -/
theorem error_atomicity_witness :
    (false = false) ∧
      (rte_power_monitor false 0 none 0 (fun _ => ⟨false, none⟩)
          (fun _ => 0) =
        (-ENOTSUP, fun _ => ⟨false, none⟩, []) ∧
      rte_power_pause false 0 (fun _ => ⟨false, none⟩) (fun _ => 0) =
        (-ENOTSUP, fun _ => ⟨false, none⟩, fun _ => 0, false) ∧
      rte_power_monitor_wakeup false 0 (fun _ => ⟨false, none⟩)
          (fun _ => 0) =
        (-ENOTSUP, fun _ => ⟨false, none⟩, fun _ => 0, false)) :=
  ⟨rfl,
    (error_atomicity false 0 0 0 none (fun _ => ⟨false, none⟩)
      (fun _ => 0)).1 rfl⟩

theorem readBytes_byte (mem : Nat → Nat) :
    ∀ (n p i : Nat), i < n →
      readBytes mem p n / 256 ^ i % 256 = mem (p + i) % 256 := by
  intro n
  induction n with
  | zero => intro p i h; omega
  | succ m ih =>
    intro p i h
    cases i with
    | zero =>
      simp only [readBytes, pow_zero, Nat.div_one, Nat.add_zero]
      omega
    | succ j =>
      have h1 : (mem p % 256 + 256 * readBytes mem (p + 1) m) / 256 =
          readBytes mem (p + 1) m := by omega
      have h2 : (256 : Nat) ^ (j + 1) = 256 * 256 ^ j := by ring
      simp only [readBytes, h2]
      rw [← Nat.div_div_eq_div_mul, h1]
      have := ih (p + 1) j (by omega)
      rw [this]
      ring_nf

theorem readBytes_congr (m1 m2 : Nat → Nat)
    (h : ∀ a, m1 a % 256 = m2 a % 256) :
    ∀ (n p : Nat), readBytes m1 p n = readBytes m2 p n := by
  intro n
  induction n with
  | zero => intro p; rfl
  | succ m ih => intro p; simp only [readBytes, h p, ih (p + 1)]

theorem umwait_wakeup_eq (mem : Nat → Nat) (addr : Nat) :
    umwait_wakeup mem addr = write64 mem addr (read64 mem addr) := by
  unfold umwait_wakeup
  simp

theorem umwait_wakeup_byte (mem : Nat → Nat) (addr : Nat) :
    ∀ a, umwait_wakeup mem addr a % 256 = mem a % 256 := by
  intro a
  rw [umwait_wakeup_eq]
  simp only [write64]
  by_cases hr : addr ≤ a ∧ a < addr + 8
  · rw [if_pos hr]
    have h1 := readBytes_byte mem 8 addr (a - addr) (by omega)
    rw [read64, h1]
    have h2 : addr + (a - addr) = a := by omega
    rw [h2]
    omega
  · rw [if_neg hr]

/-- C7: the touch performed by wakeup on a non-NULL monitored address is
value-preserving: the resulting memory agrees with the original on all
byte-level reads (any base, any width, in particular the 64-bit value at the
watched address), and the wait-status table is returned unmodified. -/
theorem wakeup_value_preserving (lcore_id a : Nat)
    (tbl : Nat → power_wait_status) (mem : Nat → Nat)
    (hl : lcore_id < RTE_MAX_LCORE)
    (ha : (tbl lcore_id).monitor_addr = some a) :
    ∃ mem2,
      rte_power_monitor_wakeup true lcore_id tbl mem = (0, tbl, mem2, true) ∧
      read64 mem2 a = read64 mem a ∧
      ∀ q n, readBytes mem2 q n = readBytes mem q n := by
  have he := wakeup_touch_eq lcore_id a tbl mem hl ha
  exact ⟨umwait_wakeup mem a, he,
    readBytes_congr (umwait_wakeup mem a) mem (umwait_wakeup_byte mem a) 8 a,
    fun q n =>
      readBytes_congr (umwait_wakeup mem a) mem (umwait_wakeup_byte mem a) n q⟩

/-- C7 witness: waking lcore 2, armed on address 16, over the memory
`fun a => a`, preserves the 64-bit value at 16 and the wait record. -/
theorem wakeup_value_preserving_witness :
    (2 : Nat) < RTE_MAX_LCORE ∧
      ((fun _ => (⟨false, some 16⟩ : power_wait_status)) 2).monitor_addr =
        some 16 ∧
      ∃ mem2,
        rte_power_monitor_wakeup true 2 (fun _ => ⟨false, some 16⟩)
            (fun a => a) =
          (0, fun _ => ⟨false, some 16⟩, mem2, true) ∧
        read64 mem2 16 = read64 (fun a => a) 16 ∧
        ∀ q n, readBytes mem2 q n = readBytes (fun a => a) q n :=
  ⟨by decide, rfl,
    wakeup_value_preserving 2 16 (fun _ => ⟨false, some 16⟩) (fun a => a)
      (by decide) rfl⟩

/-- C9: starting from the zero-initialized flag, init sets `wait_supported`
to true iff the collaborator reports both monitor and pause support; and the
flag never reverts: re-running init on a true flag keeps it true. -/
theorem wait_supported_init_spec (m p : Bool) :
    rte_power_intrinsics_init m p wait_supported_initial = (m && p) ∧
      rte_power_intrinsics_init m p true = true := by
  constructor
  · unfold rte_power_intrinsics_init wait_supported_initial
    cases m <;> cases p <;> rfl
  · unfold rte_power_intrinsics_init
    cases m <;> cases p <;> rfl
